import Mathlib

/-!
Shallow embedding of the `amiableone/onboarding` repository's concurrent
ingestion/dispatch core, and proofs checking the natural-language
specification against it.

Source files embedded:
* `src/tg/bot.py`      — `BotBase` task lifecycle, `BotUpdateHandlerMixin`
  offset tracking / update ingestion (`new_last_date`, `new_last_id`,
  `new_offset`, `process_updates`, `process_message`, `run_polling`).
* `src/assistant/query.py` — `QueryDispatcher` (`run` drain loop,
  `handle_user`, `get_response`).
* `src/assistant/utils.py` — `handle_annotations`.
* `src/main.py`        — `handle_cmds` command dispatch loop.

Python runtime errors that matter to the claims are modelled explicitly
with an error type: an uncaught exception is an `Except.error`.
-/

namespace Onboarding

/-- Python exception kinds relevant to the embedded code paths. -/
inductive PyErr
  | typeErr
  | attrErr
  | nameErr
  | indexErr
  | unboundLocalErr
  deriving DecidableEq, Repr

/-! ## Task lifecycle (`BotBase`, src/tg/bot.py lines 71–121)

`BotBase` keeps `self._tasks` (a set of tasks), a `self._work_complete`
future and a `self._stop_session` future.  `add_tasks` inserts a task into
the set and wires `complete_work` as its done-callback; `complete_work`
discards the finished task and, when the set is then empty, calls
`self._work_complete.set_result(None)` — with no check of whether a stop
was requested.  `stop_session` resolves `self._stop_session`.
Calling `set_result` on an already-resolved future raises
`InvalidStateError` inside the callback (asyncio logs it); we record that
as `completeErr` — the future itself stays resolved exactly once. -/

structure BotState where
  /-- `self._tasks`: the set of tracked tasks, by task id (no duplicates). -/
  tasks : List Nat
  /-- `self._work_complete` is resolved. -/
  workComplete : Bool
  /-- `self._stop_session` is resolved (a stop has been requested). -/
  stopRequested : Bool
  /-- a second `set_result` on `_work_complete` raised `InvalidStateError`. -/
  completeErr : Bool
  deriving DecidableEq, Repr

/-- Events affecting the lifecycle state: a task is registered via
`add_tasks` (which loops over its arguments one task at a time), a tracked
task completes (its done-callback `complete_work` runs), or
`stop_session` is called. -/
inductive BotEvent
  | addTask (t : Nat)
  | completeTask (t : Nat)
  | stopSession
  deriving DecidableEq, Repr

/-- Is this event a task completion (a `complete_work` invocation)? -/
def BotEvent.isComplete : BotEvent → Bool
  | .completeTask _ => true
  | _ => false

/-- `BotBase.add_tasks` body for one task: `self._tasks.add(task)` plus
`task.add_done_callback(self.complete_work)` (the callback wiring is
represented by the `completeTask` event). Set semantics: adding a present
element is a no-op. -/
def addTask (s : BotState) (t : Nat) : BotState :=
  if t ∈ s.tasks then s else { s with tasks := t :: s.tasks }

/-- `BotBase.complete_work`: `self._tasks.discard(task)`; then
`if not self._tasks: self._work_complete.set_result(None)`.
There is no test of `self._stop_session` here.  `set_result` on a
resolved future raises `InvalidStateError` (recorded in `completeErr`). -/
def completeWork (s : BotState) (t : Nat) : BotState :=
  let tasks' := s.tasks.erase t
  if tasks'.isEmpty then
    if s.workComplete then { s with tasks := tasks', completeErr := true }
    else { s with tasks := tasks', workComplete := true }
  else { s with tasks := tasks' }

/-- One scheduler step of the lifecycle state machine. -/
def botStep (s : BotState) : BotEvent → BotState
  | .addTask t => addTask s t
  | .completeTask t => completeWork s t
  | .stopSession => { s with stopRequested := true }

/-- Initial state set up by `BotBase.__init__` / `run`: empty task set,
both futures pending. -/
def botInit : BotState := ⟨[], false, false, false⟩

/-- Run the lifecycle machine over a sequence of events. -/
def botRun (es : List BotEvent) : BotState := es.foldl botStep botInit

/-! ## QueryDispatcher drain loop (`QueryDispatcher.run`, src/assistant/query.py lines 117–130)

`run` repeatedly takes `(chat_id, query)` from `self.queries`; if
`chat_id not in self.chats` it spawns `handle_user(chat_id, query)` as a
task, adds it to `self.handlers`, and wires
`handler.add_done_callback(self.handlers.discard)`.
Faithful detail: `self.chats` is initialised to the empty set in
`__init__` and no statement in the repository ever inserts into it, so
the membership guard is evaluated against the empty set forever. -/

structure QDState where
  /-- `self.chats` (never mutated anywhere in the source). -/
  chats : List Int
  /-- `self.handlers`: the spawned `handle_user` tasks, as
  (task id, chat id) pairs. -/
  handlers : List (Nat × Int)
  /-- fresh task-id counter (models `asyncio.create_task` returning a new
  task object each time). -/
  nextId : Nat
  deriving DecidableEq, Repr

/-- One interleaving step of the drain loop: either the loop dequeues a
`(chat, text)` entry, or one of the spawned handler tasks completes (its
done-callback discards it from `self.handlers`). -/
inductive QDEvent
  | query (chat : Int) (text : String)
  | done (tid : Nat)
  deriving DecidableEq, Repr

/-- The body of `QueryDispatcher.run` for a dequeued entry, and the
`handlers.discard` done-callback.  On `query`: `if chat_id not in
self.chats:` spawn a handler — and, as in the source, nothing adds
`chat` to `self.chats`. -/
def qdStep (s : QDState) : QDEvent → QDState
  | .query c _text =>
    if c ∈ s.chats then s
    else { s with handlers := s.handlers ++ [(s.nextId, c)], nextId := s.nextId + 1 }
  | .done tid => { s with handlers := s.handlers.filter (fun h => h.1 ≠ tid) }

/-- `QueryDispatcher.__init__`: `self.chats = set()`, `self.handlers = set()`. -/
def qdInit : QDState := ⟨[], [], 0⟩

/-- Run the drain loop over an interleaving of dequeues and completions. -/
def qdRun (es : List QDEvent) : QDState := es.foldl qdStep qdInit

/-- Number of currently active (spawned, not yet completed) handler tasks
for a given chat. -/
def activeFor (s : QDState) (c : Int) : Nat :=
  (s.handlers.filter (fun h => h.2 = c)).length

/-! ## Command dispatch (`handle_cmds`, src/main.py lines 41–53)

`handle_cmds` loops over `(chat, cmd, params)` entries from
`bot.cmds_pending`; `bot.commands[cmd]` raises `KeyError` for an
unregistered name, which the `except KeyError: continue` swallows; for a
registered name the command object is called with `(chat, params)`,
producing exactly one task which is added to the local `handlers` set.
We model the registry by its set of registered names (all commands
registered in `main.py` carry coroutine callbacks) and return the list of
spawned tasks as `(command name, chat id, params)` records. -/

def handle_cmds (commands : List String) : List (Int × String × String) → List (String × Int × String)
  | [] => []
  | (chat, cmd, params) :: rest =>
    if cmd ∈ commands then (cmd, chat, params) :: handle_cmds commands rest
    else handle_cmds commands rest

/-! ## Update ingestion and offset tracking
(`BotUpdateHandlerMixin`, src/tg/bot.py lines 214–319)

An inbound Telegram update carries `update_id` and a `message` (or
`edited_message`) object with `chat.id`, `text`, and a unix `date`
(`edit_date` for edits).  Times are unix seconds as `Int`;
`datetime.today()` is the parameter `now`; `timedelta(days=7)` is
`604800` seconds. -/

/-- A `message` / `edited_message` object.  Fields the code accesses may
be absent (`dict.get` returns `None`, `dict[k]` raises `KeyError`). -/
structure Msg where
  chat_id : Option Int
  text : Option String
  date : Option Int
  edit_date : Option Int
  deriving DecidableEq, Repr

/-- One update object from `getUpdates`. -/
structure Upd where
  update_id : Int
  message : Option Msg
  edited_message : Option Msg
  deriving DecidableEq, Repr

/-- Python truthiness of `msg_obj.get("date")`: `None` and `0` are falsy. -/
def pyTruthy : Option Int → Option Int
  | some v => if v = 0 then none else some v
  | none => none

/-- The local variable `date` threaded through `process_updates`.  It is
initialised to `self.last_date` — a `datetime` object (or `None`) — and
is overwritten with *raw unix integers* taken from message objects.
`datetime.fromtimestamp` accepts an integer and raises `TypeError` on a
`datetime` or on `None`, so the two shapes must be distinguished. -/
inductive LDate
  /-- the initial `date = self.last_date` (a `datetime` when `some`, else
  `None`); `datetime.fromtimestamp` raises `TypeError` on either. -/
  | init (d : Option Int)
  /-- a raw unix timestamp read from a message object. -/
  | raw (v : Int)
  deriving DecidableEq, Repr

/-- `date = msg_obj.get("date") or msg_obj.get("edit_date") or date`:
first truthy of the three; the final operand is returned even if falsy. -/
def threadDate (m : Msg) (d : LDate) : LDate :=
  match pyTruthy m.date with
  | some v => .raw v
  | none =>
    match pyTruthy m.edit_date with
    | some v => .raw v
    | none => d

/-- `BotUpdateHandlerMixin.new_last_date(date)`:
`self.last_date = datetime.fromtimestamp(date)`.  Succeeds on a raw unix
integer; raises `TypeError` when `date` is still the carried initial
value (`None` or a `datetime`). -/
def new_last_date : LDate → Except PyErr Int
  | .raw v => .ok v
  | .init _ => .error .typeErr

/-- `BotUpdateHandlerMixin.new_last_id(luid)`:
`if self.last_date and self.last_date > datetime.today() - timedelta(days=7):
self.last_id = max(self.last_id, luid) else: self.last_id = luid`.
A `datetime` object is always truthy, so the first conjunct is just
presence. -/
def new_last_id (now : Int) (last_date : Option Int) (last_id luid : Int) : Int :=
  match last_date with
  | some d => if d > now - 604800 then max last_id luid else luid
  | none => luid

/-- State owned by the mixin: poll cursor plus the three queues
(`conf_updates`, lines 230–237).  `updates` (the raw inbox) is consumed
immediately by `process_updates`, so only its drained contents appear as
the argument list below. -/
structure PollState where
  offset : Int
  last_date : Option Int
  last_id : Int
  /-- `self.queries`: `(chat_id, text)` entries, FIFO. -/
  queries : List (Int × String)
  /-- `self.cmds_pending`: `(chat_id, command, params)` entries, FIFO. -/
  cmds_pending : List (Int × String × String)
  deriving DecidableEq, Repr

/-- State after `conf_updates` on a fresh bot: `offset = 1` (class
attribute), `last_date = None`, `last_id = 0`, empty queues. -/
def pollInit : PollState := ⟨1, none, 0, [], []⟩

/-- `BotUpdateHandlerMixin.process_message(msg_obj)`: reads
`msg_obj["chat"]["id"]` and `msg_obj["text"]` and puts `(chat_id, text)`
on `self.queries`; on `TypeError`/`KeyError` it raises
`TypeError("Neither a message nor command")`.  Nothing is ever put on
`self.cmds_pending`. -/
def process_message (m : Msg) : Except Unit (Int × String) :=
  match m.chat_id, m.text with
  | some c, some t => .ok (c, t)
  | _, _ => .error ()

/-- The `while not self.updates.empty()` loop body of `process_updates`:
`msg_obj = update.get("message") or update.get("edited_message")` (a
missing pair leaves `msg_obj = None`, and `None.get` raises
`AttributeError`, uncaught); thread the local `date`; `new_last_date`
(its `TypeError` is uncaught); `new_last_id` — which reads
`self.last_date` *after* `new_last_date` has just overwritten it with
the current update's date; `new_offset` (`self.offset = self.last_id + 1`);
then `try: self.process_message(msg_obj) except TypeError: continue`.
The mutations are performed in place on `self`, so an exception raised
mid-batch keeps everything written by the earlier updates of the batch:
an error result carries the `PollState` as mutated up to the raise
(both raise sites — the `None.get` and `fromtimestamp` — occur before
the current update writes any field, so the carried state is the one
after the previously processed updates). -/
def processUpdatesLoop (now : Int) :
    List Upd → LDate → PollState → Except (PyErr × PollState) PollState
  | [], _, s => .ok s
  | u :: rest, d, s =>
    match u.message <|> u.edited_message with
    | none => .error (.attrErr, s)
    | some m =>
      let d' := threadDate m d
      match new_last_date d' with
      | .error e => .error (e, s)
      | .ok dv =>
        let lastId' := new_last_id now (some dv) s.last_id u.update_id
        let s' := { s with last_date := some dv, last_id := lastId', offset := lastId' + 1 }
        match process_message m with
        | .ok q => processUpdatesLoop now rest d' { s' with queries := s'.queries ++ [q] }
        | .error _ => processUpdatesLoop now rest d' s'

/-- `BotUpdateHandlerMixin.process_updates`: `date = self.last_date`,
then the drain loop above over the queued updates in arrival order.
An error is an uncaught exception propagating out of the call, paired
with the in-place state mutations retained up to the raise. -/
def process_updates (now : Int) (upds : List Upd) (s : PollState) :
    Except (PyErr × PollState) PollState :=
  processUpdatesLoop now upds (.init s.last_date) s

/-- `BotUpdateHandlerMixin.run_polling`: `try: while self.is_running:
await self.get_updates(); self.process_updates() except Exception as exc:
logger.exception(...)`.  The `try` wraps the *whole* loop, so the first
exception — whether from the fetch or from processing — is logged and the
function returns; later batches are never processed.  Each scheduled
iteration is a batch: either the fetch raised (`Except.error`, before
any `PollState` field was touched, so the state is unchanged) or it
enqueued a list of updates.  A batch whose processing raises ends the
loop with the partially mutated state that `process_updates` left
behind in place. -/
def run_polling (now : Int) : List (Except PyErr (List Upd)) → PollState → PollState
  | [], s => s
  | b :: rest, s =>
    match b with
    | .error _ => s
    | .ok upds =>
      match process_updates now upds s with
      | .error (_, spart) => spart
      | .ok s' => run_polling now rest s'

/-! ## Assistant response handling
(`QueryDispatcher.get_response` / `handle_user`, src/assistant/query.py
lines 86–115, and `handle_annotations`, src/assistant/utils.py
lines 106–138). -/

/-- Terminal run statuses of the assistant backend. -/
inductive RunStatus
  | completed
  | failed
  | cancelled
  | expired
  deriving DecidableEq, Repr

/-- The fields of an OpenAI `Run` object that the code reads. -/
structure Run where
  status : RunStatus
  deriving DecidableEq, Repr

/-- A citation annotation inside a text content block: `annotation.text`
is the raw placeholder marker appearing in the reply;
`annotation.file_citation.file_id` exists only for file-citation
annotations (other kinds raise `AttributeError` on `.file_citation`). -/
structure Annotation where
  text : String
  file_citation : Option String
  deriving DecidableEq, Repr

/-- A text content block: `.text.value` and `.text.annotations`. -/
structure TextContent where
  value : String
  annotations : List Annotation
  deriving DecidableEq, Repr

/-- One content block of a thread message: `text`, or a non-text block
(e.g. `image_file`) which has no `.text` attribute — accessing `.text`
on it raises `AttributeError`. -/
inductive MessageContent
  | text (t : TextContent)
  | image_file
  deriving DecidableEq, Repr

/-- A thread message returned by the list-messages paginator. -/
structure ThreadMessage where
  id : String
  content : List MessageContent
  deriving DecidableEq, Repr

/-- `handle_annotations(client, response, annotations, vstore_id)`
(src/assistant/utils.py lines 106–138); the opaque remote handles
`client` and `vstore_id` are dropped here.  Faithful control flow:

* `gen_file_getter` contains no `yield`, so it is an ordinary function —
  calling it executes its `for` body eagerly and returns `None`;
* for the first annotation whose `.file_citation.file_id` access succeeds
  the body runs `file_ids.append(file_id)`, but no `file_ids` name is
  defined anywhere, raising `NameError` (not caught: the `except` clause
  only catches `AttributeError`);
* annotations without a file citation hit `AttributeError` and are
  skipped, so if no annotation carries a citation the call falls through
  to `for coro in file_getter_generator:` — iterating the returned `None`
  raises `TypeError`.

The function therefore always raises and never returns a string. -/
def handle_annotations (response : String) (annotations : List Annotation) : Except PyErr String :=
  match annotations.find? (fun a => a.file_citation.isSome) with
  | some _ => .error .nameErr
  | none =>
    let _unused := response
    .error .typeErr

/-- The `async for message in paginator` loop of
`QueryDispatcher.get_response`, with accumulators `response` (the local
variable, unbound while `none`) and `last_id`:

* `last_id = message.id` runs first for every message;
* `message.content[0]` raises `IndexError` on an empty content list
  (not an `AttributeError`, so it propagates);
* on a non-text first block, `.text` raises `AttributeError`, which the
  `except AttributeError: pass` swallows — the message is skipped;
* on a text first block the extraction succeeds and the code evaluates
  `await handle_annotations(response, annotations)` — but
  `handle_annotations` requires `(client, response, annotations,
  vstore_id)`, so this 2-argument call raises `TypeError` for missing
  required positional arguments; `TypeError` is not `AttributeError`, so
  it propagates. -/
def getResponseLoop : List ThreadMessage → Option String → Option String →
    Except PyErr (Option String × Option String)
  | [], resp, last => .ok (resp, last)
  | m :: rest, resp, _ =>
    match m.content.head? with
    | none => .error .indexErr
    | some (.text _t) => .error .typeErr
    | some .image_file => getResponseLoop rest resp (some m.id)

/-- `QueryDispatcher.get_response(run, last_id)` (src/assistant/query.py
lines 86–103).  When `run.status == "completed"` it iterates the listed
messages (supplied here as `msgs`); after the loop it executes
`return response, last_id` — if no iteration assigned `response`, that
name is unbound and the statement raises `UnboundLocalError`.  When the
run is not completed the function falls off the `if` and returns `None`. -/
def get_response (run : Run) (last_id : Option String) (msgs : List ThreadMessage) :
    Except PyErr (Option (String × Option String)) :=
  if run.status = RunStatus.completed then
    match getResponseLoop msgs none last_id with
    | .error e => .error e
    | .ok (none, _) => .error .unboundLocalErr
    | .ok (some r, last) => .ok (some (r, last))
  else
    .ok none

/-- The remote interaction of one `handle_user` cycle, as observed at the
boundary the spec treats as atomic: the terminal `Run` returned by
`run_thread` and the messages the paginator yields to `get_response`. -/
structure Cycle where
  run : Run
  msgs : List ThreadMessage
  deriving DecidableEq, Repr

/-- `QueryDispatcher.handle_user(chat_id, query)` (src/assistant/query.py
lines 105–115): `while True:` — append the query to the thread, run it,
call `get_response`; if the result is not `None`, push
`(chat_id, response)` onto `self.responses`; `await asyncio.sleep(1)`
and loop again.  There is no `break` or `return`: the handler never
terminates normally; an exception out of `get_response` kills the task.
We observe the infinite loop along a finite script of remote cycles and
return the responses pushed; exhausting the script corresponds to the
handler still running and about to start another cycle. -/
def handle_user (cycles : List Cycle) (last_id : Option String) (pushed : List String) :
    Except PyErr (List String)  :=
  match cycles with
  | [] => .ok pushed
  | c :: rest =>
    match get_response c.run last_id c.msgs with
    | .error e => .error e
    | .ok none => handle_user rest last_id pushed
    | .ok (some (r, last')) => handle_user rest last' (pushed ++ [r])

/-! ## Domain predicate and concrete sample values used by the checks below. -/

/-- A well-formed in-window update: it carries a `message` whose `date`
is a (truthy, i.e. nonzero) unix time lying within the 7-day reset
window of `now`. -/
def GoodUpd (now : Int) (u : Upd) : Prop :=
  ∃ m d, u.message = some m ∧ m.date = some d ∧ 0 < d ∧ now - 604800 < d

/-- Message carrying the `/start` command text (spec §8 scenario). -/
def msgStart : Msg := { chat_id := some 1, text := some "/start", date := some 1000000, edit_date := none }

/-- Plain-text message `"hello"` (spec §8 scenario). -/
def msgHello : Msg := { chat_id := some 1, text := some "hello", date := some 1000000, edit_date := none }

/-- Update `{id:5, chat:1, text:"/start"}` of the spec §8 scenario, with
a recent event time. -/
def updStart : Upd := { update_id := 5, message := some msgStart, edited_message := none }

/-- Update `{id:6, chat:1, text:"hello"}` of the spec §8 scenario. -/
def updHello : Upd := { update_id := 6, message := some msgHello, edited_message := none }

/-- A malformed update with neither `message` nor `edited_message`:
`update.get("message") or update.get("edited_message")` is `None` and
`None.get("date")` raises `AttributeError` inside `process_updates`. -/
def updNoMsg : Upd := { update_id := 9, message := none, edited_message := none }

/-- Message used in the stale-cursor scenario. -/
def msgHi : Msg := { chat_id := some 1, text := some "hi", date := some 1000000, edit_date := none }

/-- The next update after a long silence: its id (5) is smaller than the
previously seen id (100) but its own event time is current. -/
def updFreshSmall : Upd := { update_id := 5, message := some msgHi, edited_message := none }

/-- Cursor state whose previously recorded event time (`395199`) is older
than the reset window relative to `now = 1000000`
(`1000000 - 604800 = 395200 > 395199`), with `last_id = 100`. -/
def staleState : PollState :=
  { offset := 101, last_date := some 395199, last_id := 100, queries := [], cmds_pending := [] }

/-- A file-citation annotation whose raw placeholder marker is
`"【4:0†info】"`. -/
def citeAnn : Annotation := { text := "【4:0†info】", file_citation := some "file-abc" }

/-- A completed-run reply message whose text contains the raw citation
marker and carries the corresponding annotation. -/
def citedMsg : ThreadMessage :=
  { id := "msg_1", content := [.text { value := "Hi 【4:0†info】", annotations := [citeAnn] }] }

/-- A message whose content is not text (extraction raises
`AttributeError`, which `get_response` swallows and skips). -/
def imgMsg : ThreadMessage := { id := "msg_img", content := [.image_file] }

/-- A plain text message with no annotations. -/
def okTextMsg : ThreadMessage :=
  { id := "msg_txt", content := [.text { value := "ok", annotations := [] }] }

/-! ## Helper lemmas -/

/-- Running the lifecycle machine on one more event is one `botStep`. -/
theorem botRun_append (es : List BotEvent) (e : BotEvent) :
    botRun (es ++ [e]) = botStep (botRun es) e := by
  simp [botRun, List.foldl_append]

/-- Per-step behaviour of `_work_complete`: it is monotone (a resolved
future stays resolved), and a step that resolves it is a `complete_work`
invocation that leaves the task set empty.  No condition on
`stopRequested` appears, because `complete_work` never consults the stop
future. -/
theorem botStep_workComplete (s : BotState) (e : BotEvent) :
    (s.workComplete = true → (botStep s e).workComplete = true) ∧
    ((botStep s e).workComplete = true →
      s.workComplete = true ∨ (e.isComplete = true ∧ (botStep s e).tasks = [])) := by
  cases e with
  | addTask t =>
    simp only [botStep, addTask]
    split
    · exact ⟨fun h => h, fun h => Or.inl h⟩
    · exact ⟨fun h => h, fun h => Or.inl h⟩
  | completeTask t =>
    simp only [botStep, completeWork, BotEvent.isComplete]
    split
    · split
      · simp_all
      · simp_all [List.isEmpty_iff]
    · exact ⟨fun h => h, fun h => Or.inl h⟩
  | stopSession =>
    exact ⟨fun h => h, fun h => Or.inl h⟩

/-- Unfolding one iteration of the `process_updates` drain loop on a
well-formed in-window update: the local `date` becomes the update's raw
date, `last_date` is overwritten with it, the max-merge branch of
`new_last_id` is taken (because the *freshly written* date is within the
window), and the offset is recomputed. -/
theorem processUpdatesLoop_cons_good (now : Int) (u : Upd) (rest : List Upd)
    (d : LDate) (s : PollState) (m : Msg) (d0 : Int)
    (hm : u.message = some m) (hd : m.date = some d0) (h0 : d0 ≠ 0)
    (hwin : now - 604800 < d0) :
    processUpdatesLoop now (u :: rest) d s =
      processUpdatesLoop now rest (.raw d0)
        (match process_message m with
        | .ok q =>
          { s with last_date := some d0, last_id := max s.last_id u.update_id,
                   offset := max s.last_id u.update_id + 1,
                   queries := s.queries ++ [q] }
        | .error _ =>
          { s with last_date := some d0, last_id := max s.last_id u.update_id,
                   offset := max s.last_id u.update_id + 1 }) := by
  have horelse : (u.message <|> u.edited_message) = some m := by
    rw [hm]; rfl
  have hthread : threadDate m d = .raw d0 := by
    simp [threadDate, pyTruthy, hd, h0]
  have hnli : new_last_id now (some d0) s.last_id u.update_id = max s.last_id u.update_id := by
    simp [new_last_id, hwin]
  simp only [processUpdatesLoop, horelse, hthread, new_last_date, hnli]
  cases process_message m <;> rfl

/-- Processing a list of well-formed in-window updates succeeds, the
final `last_id` is the running maximum of the observed ids folded over
the starting `last_id`, and (when at least one update was processed)
`offset = last_id + 1`. -/
theorem processUpdatesLoop_good (now : Int) (upds : List Upd)
    (hg : ∀ u ∈ upds, GoodUpd now u) :
    ∀ (d : LDate) (s : PollState),
      ∃ s', processUpdatesLoop now upds d s = .ok s' ∧
        s'.last_id = upds.foldl (fun a u => max a u.update_id) s.last_id ∧
        s'.queries.length ≥ s.queries.length ∧
        (upds = [] → s' = s) ∧
        (upds ≠ [] → s'.offset = s'.last_id + 1) := by
  induction upds with
  | nil =>
    intro d s
    exact ⟨s, rfl, rfl, le_refl _, fun _ => rfl, fun h => absurd rfl h⟩
  | cons u rest ih =>
    intro d s
    obtain ⟨m, d0, hm, hd, h0pos, hwin⟩ := hg u (List.mem_cons_self u rest)
    have hrest : ∀ v ∈ rest, GoodUpd now v := fun v hv => hg v (List.mem_cons_of_mem u hv)
    rw [processUpdatesLoop_cons_good now u rest d s m d0 hm hd (by omega) hwin]
    cases hpm : process_message m with
    | ok q =>
      obtain ⟨s', heq, hlast, hqlen, hnil, hne⟩ :=
        (ih hrest) (.raw d0)
          { s with last_date := some d0, last_id := max s.last_id u.update_id,
                   offset := max s.last_id u.update_id + 1,
                   queries := s.queries ++ [q] }
      refine ⟨s', by simp [hpm, heq], by simpa using hlast, ?_, by simp, ?_⟩
      · simpa using le_trans (by simp) hqlen
      · intro _
        rcases Decidable.em (rest = []) with hre | hre
        · subst hre; rw [hnil rfl]
        · exact hne hre
    | error err =>
      obtain ⟨s', heq, hlast, hqlen, hnil, hne⟩ :=
        (ih hrest) (.raw d0)
          { s with last_date := some d0, last_id := max s.last_id u.update_id,
                   offset := max s.last_id u.update_id + 1 }
      refine ⟨s', by simp [hpm, heq], by simpa using hlast, ?_, by simp, ?_⟩
      · simpa using hqlen
      · intro _
        rcases Decidable.em (rest = []) with hre | hre
        · subst hre; rw [hnil rfl]
        · exact hne hre

/-! ## Claim checks -/

/-- C1: the claim says at most one query-handler task per `chat_id` is
ever active.  The code violates it: `QueryDispatcher.run` guards handler
spawning with `if chat_id not in self.chats`, but no statement in the
repository ever inserts into `self.chats`, so the guard never fires.
Two queries for chat 42 dequeued before the first handler completes
leave two concurrently active handlers for chat 42, while `chats` is
still empty. -/
theorem c1_two_active_handlers_for_same_chat :
    activeFor (qdRun [QDEvent.query 42 "hi", QDEvent.query 42 "again"]) 42 = 2 ∧
    (qdRun [QDEvent.query 42 "hi", QDEvent.query 42 "again"]).chats = [] := by
  decide

/-- C2 counterexample: the claim says the work-complete signal resolves
only when the tracked set empties after a stop request, and that an
emptying before any stop request does not fire it.  In the code
`complete_work` never consults the stop future: a single task added and
completed — with no stop ever requested — resolves `_work_complete`. -/
theorem c2_counterexample_fires_without_stop :
    (botRun [BotEvent.addTask 0, BotEvent.completeTask 0]).workComplete = true ∧
    (botRun [BotEvent.addTask 0, BotEvent.completeTask 0]).stopRequested = false := by
  decide

/-- C2 (amended): over every event sequence, the work-complete future is
monotone once resolved (it resolves at most once — a later `set_result`
attempt raises `InvalidStateError` instead of resolving again), and any
step that resolves it is a task completion that leaves the tracked set
empty; whether a stop was requested plays no part. -/
theorem c2_work_complete_amended (es : List BotEvent) (e : BotEvent) :
    ((botRun es).workComplete = true → (botRun (es ++ [e])).workComplete = true) ∧
    ((botRun (es ++ [e])).workComplete = true →
      (botRun es).workComplete = true ∨
        (e.isComplete = true ∧ (botRun (es ++ [e])).tasks = [])) := by
  rw [botRun_append]
  exact botStep_workComplete (botRun es) e

/-- C2 witness: the amended theorem applied to the concrete one-task
trace: its resolution step is a completion that leaves the set empty. -/
theorem c2_work_complete_amended_witness :
    (botRun [BotEvent.addTask 0]).workComplete = true ∨
      ((BotEvent.completeTask 0).isComplete = true ∧
        (botRun ([BotEvent.addTask 0] ++ [BotEvent.completeTask 0])).tasks = []) :=
  (c2_work_complete_amended [BotEvent.addTask 0] (BotEvent.completeTask 0)).2 (by decide)

/-- C3 counterexample: the claim says an exception while fetching or
processing a batch is logged and the loop proceeds to the next
iteration.  In the code the `try` of `run_polling` wraps the whole
`while` loop, so the first exception ends polling: after a failing fetch
the next batch — which on its own would enqueue `(1, "hello")` — is
never processed and the state is left untouched. -/
theorem c3_counterexample_bad_batch_ends_polling :
    run_polling 1000000 [Except.error PyErr.typeErr, Except.ok [updHello]] pollInit = pollInit ∧
    (run_polling 1000000 [Except.ok [updHello]] pollInit).queries = [(1, "hello")] ∧
    pollInit.queries = [] := by
  refine ⟨rfl, ?_, rfl⟩
  decide

/-- C3 (amended): any exception raised while fetching or processing a
batch is caught (it does not propagate out of `run_polling` — the
function returns a state), but it terminates the polling loop: a fetch
error ends polling with the state unchanged (the raise precedes any
state write), and a processing error ends polling with exactly the
partially mutated state the raise left in place — in either case the
failing batch's remaining updates and all subsequent batches are never
processed. -/
theorem c3_exception_ends_polling_amended (now : Int) (e : PyErr)
    (post : List (Except PyErr (List Upd))) (s : PollState) :
    run_polling now (.error e :: post) s = s ∧
    ∀ (upds : List Upd) (eproc : PyErr) (spart : PollState)
      (post' : List (Except PyErr (List Upd))),
      process_updates now upds s = .error (eproc, spart) →
      run_polling now (.ok upds :: post') s = spart := by
  constructor
  · rfl
  · intro upds eproc spart post' h
    simp [run_polling, h]

/-- C3 witness: a failing fetch ends polling with the state untouched,
and the batch `[updHello, updNoMsg]` — whose second update has neither
`message` nor `edited_message`, so `None.get("date")` raises
`AttributeError` — ends polling keeping the first update's in-place
mutations (offset 7, `(1, "hello")` queued), even though a further
batch is pending. -/
theorem c3_exception_ends_polling_witness :
    run_polling 1000000 [Except.error PyErr.typeErr, Except.ok [updHello]] pollInit = pollInit ∧
    run_polling 1000000 [Except.ok [updHello, updNoMsg], Except.ok [updStart]] pollInit =
      { offset := 7, last_date := some 1000000, last_id := 6,
        queries := [(1, "hello")], cmds_pending := [] } := by
  constructor
  · exact (c3_exception_ends_polling_amended 1000000 PyErr.typeErr [Except.ok [updHello]] pollInit).1
  · exact (c3_exception_ends_polling_amended 1000000 PyErr.typeErr [] pollInit).2
      [updHello, updNoMsg] PyErr.attrErr
      { offset := 7, last_date := some 1000000, last_id := 6,
        queries := [(1, "hello")], cmds_pending := [] }
      [Except.ok [updStart]] rfl

/-- C4: the claim (and the spec §8 scenario) says command-marker text is
routed to the command queue as `(chat_id, command_name, params)` and all
other text to the query queue.  The code's `process_message` puts every
well-formed message on the query queue and never produces to
`cmds_pending` — contradicting its own docstring ("Parse message for
command or query and put processed data into the corresponding queue")
and leaving the `handle_cmds` consumer in `main.py` without a producer.
Evaluating the scenario batch: the offset does become 7, but the command
queue stays empty and `(1, "/start")` lands on the query queue. -/
theorem c4_scenario_no_command_routing :
    process_updates 1000000 [updStart, updHello] pollInit =
      Except.ok { offset := 7, last_date := some 1000000, last_id := 6,
                  queries := [(1, "/start"), (1, "hello")], cmds_pending := [] } := by
  rfl

/-- C5: for every non-empty sequence of well-formed updates with strictly
increasing (positive) `update_id` whose event times all lie within the
reset window, processing from the fresh tracker state succeeds, the
resulting offset is `max(update_id) + 1` (the fold of `max` over the ids
starting from the initial `last_id = 0`), and after every prefix of the
sequence — i.e. after every single processed update — the offset equals
`last_id + 1`. -/
theorem c5_offset_is_max_plus_one (now : Int) (upds : List Upd)
    (hne : upds ≠ [])
    (hg : ∀ u ∈ upds, GoodUpd now u)
    (_hmono : List.Chain' (fun a b => a.update_id < b.update_id) upds)
    (_hpos : ∀ u ∈ upds, 0 < u.update_id) :
    ∃ s', process_updates now upds pollInit = .ok s' ∧
      s'.offset = (upds.map Upd.update_id).foldl max 0 + 1 ∧
      ∀ p, p ≠ [] → p <+: upds →
        ∃ sp, process_updates now p pollInit = .ok sp ∧ sp.offset = sp.last_id + 1 := by
  obtain ⟨s', heq, hlast, _, _, hoff⟩ :=
    processUpdatesLoop_good now upds hg (.init pollInit.last_date) pollInit
  refine ⟨s', heq, ?_, ?_⟩
  · rw [hoff hne, hlast, List.foldl_map]
    rfl
  · intro p hp hpre
    have hgp : ∀ u ∈ p, GoodUpd now u := fun u hu => hg u (hpre.subset hu)
    obtain ⟨sp, heqp, _, _, _, hoffp⟩ :=
      processUpdatesLoop_good now p hgp (.init pollInit.last_date) pollInit
    exact ⟨sp, heqp, hoffp hp⟩

/-- C5 witness: the two-update batch of the spec scenario (`ids 5, 6`,
event times within the window of `now = 1000000`) satisfies every
hypothesis and yields offset `max(5, 6) + 1 = 7`, with offset =
`last_id + 1` after each prefix. -/
theorem c5_offset_is_max_plus_one_witness :
    ∃ s', process_updates 1000000 [updStart, updHello] pollInit = .ok s' ∧
      s'.offset = (([updStart, updHello].map Upd.update_id).foldl max 0) + 1 ∧
      ∀ p, p ≠ [] → p <+: [updStart, updHello] →
        ∃ sp, process_updates 1000000 p pollInit = .ok sp ∧ sp.offset = sp.last_id + 1 := by
  refine c5_offset_is_max_plus_one 1000000 [updStart, updHello] (by decide) ?_
    (by simp [List.chain'_cons, updStart, updHello]) ?_
  · intro u hu
    simp only [List.mem_cons, List.not_mem_nil, or_false] at hu
    rcases hu with hu | hu <;> subst hu
    · exact ⟨msgStart, 1000000, rfl, rfl, by decide, by decide⟩
    · exact ⟨msgHello, 1000000, rfl, rfl, by decide, by decide⟩
  · intro u hu
    simp only [List.mem_cons, List.not_mem_nil, or_false] at hu
    rcases hu with hu | hu <;> subst hu
    · decide
    · decide

/-- C6 counterexample: the claim says that when the *previously* recorded
event time is older than the reset window, the next update's id is
adopted unconditionally even if smaller.  In the code `new_last_date`
runs *before* `new_last_id` inside the `process_updates` loop, so the
window check reads the current update's own freshly recorded date: from
a cursor whose previous event time (`395199`) is stale (older than
`1000000 - 604800 = 395200`) and `last_id = 100`, an incoming update
with id `5` and a current date keeps `last_id = 100` instead of adopting
`5`. -/
theorem c6_counterexample_stale_cursor_keeps_max :
    (staleState.last_date = some 395199 ∧ (395199 : Int) ≤ 1000000 - 604800) ∧
    process_updates 1000000 [updFreshSmall] staleState =
      Except.ok { offset := 101, last_date := some 1000000, last_id := 100,
                  queries := [(1, "hi")], cmds_pending := [] } ∧
    (100 : Int) ≠ updFreshSmall.update_id := by
  exact ⟨⟨rfl, by decide⟩, rfl, by decide⟩

/-- C6 (amended): the reset-window check is applied to the event time of
the update *currently being processed*: `process_updates` records the
incoming update's date into `last_date` first, and `new_last_id` then
max-merges exactly when that freshly recorded date is within the window
of now, adopting the incoming id unconditionally otherwise.  The age of
the previously recorded event time plays no role when the current update
carries a date. -/
theorem c6_reset_check_uses_current_date_amended (now : Int) (s : PollState)
    (u : Upd) (m : Msg) (d0 : Int)
    (hm : u.message = some m) (hd : m.date = some d0) (h0 : d0 ≠ 0) :
    ∃ s', process_updates now [u] s = Except.ok s' ∧
      s'.last_date = some d0 ∧
      s'.last_id = (if now - 604800 < d0 then max s.last_id u.update_id else u.update_id) := by
  have horelse : (u.message <|> u.edited_message) = some m := by
    rw [hm]; rfl
  have hthread : threadDate m (.init s.last_date) = .raw d0 := by
    simp [threadDate, pyTruthy, hd, h0]
  unfold process_updates
  simp only [processUpdatesLoop, horelse, hthread, new_last_date, new_last_id]
  cases hpm : process_message m with
  | ok q =>
    refine ⟨_, rfl, rfl, ?_⟩
    by_cases hwin : now - 604800 < d0
    · simp [hwin]
    · simp [hwin]
  | error err =>
    refine ⟨_, rfl, rfl, ?_⟩
    by_cases hwin : now - 604800 < d0
    · simp [hwin]
    · simp [hwin]

/-- C6 witness: the amended theorem at the stale-cursor input — the
current update's date `1000000` is within the window, so the code
max-merges (`max 100 5 = 100`) even though the previous event time was
stale. -/
theorem c6_reset_check_uses_current_date_witness :
    ∃ s', process_updates 1000000 [updFreshSmall] staleState = Except.ok s' ∧
      s'.last_date = some 1000000 ∧
      s'.last_id = (if (1000000 : Int) - 604800 < 1000000
        then max staleState.last_id updFreshSmall.update_id
        else updFreshSmall.update_id) :=
  c6_reset_check_uses_current_date_amended 1000000 staleState updFreshSmall msgHi 1000000
    rfl rfl (by decide)

/-- C7: the claim says citation annotations are resolved so that the raw
marker never reaches the response queue verbatim.  The code cannot
resolve any annotation: `get_response` calls
`handle_annotations(response, annotations)` with two arguments while the
function requires `(client, response, annotations, vstore_id)`, raising
`TypeError` at the call (not caught — only `AttributeError` is); and
`handle_annotations` itself, even when called with its full argument
list, always raises — `NameError` on the undefined `file_ids` for any
file-citation annotation, `TypeError` from iterating the `None` returned
by the yield-less `gen_file_getter` otherwise — contradicting its own
docstring.  No resolved response is ever pushed; the handler task dies
instead. -/
theorem c7_annotation_resolution_always_raises :
    get_response { status := RunStatus.completed } none [citedMsg] =
      Except.error PyErr.typeErr ∧
    handle_annotations "Hi 【4:0†info】" [citeAnn] = Except.error PyErr.nameErr ∧
    handle_annotations "plain" [] = Except.error PyErr.typeErr :=
  ⟨rfl, rfl, rfl⟩

/-- C8 counterexample: the claim says a handler whose run reaches a
non-completed terminal status terminates right after the cycle, freeing
the chat's slot.  `handle_user` is a `while True` loop with no `break`:
after the failed cycle it sleeps and starts another cycle.  Observably,
extending the script beyond the failed cycle changes the outcome (here
the second cycle's mis-aritied annotation call raises `TypeError`),
which is impossible for a handler that terminated at the failed cycle. -/
theorem c8_counterexample_handler_keeps_running :
    handle_user [{ run := { status := RunStatus.failed }, msgs := [] }] none [] =
      Except.ok [] ∧
    handle_user [{ run := { status := RunStatus.failed }, msgs := [] },
                 { run := { status := RunStatus.completed }, msgs := [okTextMsg] }] none [] =
      Except.error PyErr.typeErr ∧
    (Except.error PyErr.typeErr ≠ (Except.ok [] : Except PyErr (List String))) :=
  ⟨rfl, rfl, by simp⟩

/-- C8 (amended): for every handler cycle in which the run reaches a
non-completed terminal status, no entry is pushed onto the response
queue for that cycle — and the handler does not terminate: it proceeds
to the next cycle with the accumulated pushes unchanged.  (No per-chat
active slot is freed; as C1 records, the active-chat set is never
populated at all.) -/
theorem c8_failed_run_pushes_nothing_amended (rest : List Cycle) (r : Run)
    (msgs : List ThreadMessage) (last : Option String) (pushed : List String)
    (h : r.status ≠ RunStatus.completed) :
    handle_user ({ run := r, msgs := msgs } :: rest) last pushed =
      handle_user rest last pushed := by
  simp [handle_user, get_response, h]

/-- C8 witness: a failed cycle in front of an empty script leaves the
handler exactly where the empty script leaves it, with nothing pushed. -/
theorem c8_failed_run_pushes_nothing_witness :
    handle_user [{ run := { status := RunStatus.failed }, msgs := [] }] none [] =
      handle_user [] none [] :=
  c8_failed_run_pushes_nothing_amended [] { status := RunStatus.failed } [] none []
    (by decide)

/-- C9: the claim says a failure extracting one message's content is
swallowed, the message skipped, and the cycle still returns normally for
the remaining messages — including when every message fails extraction.
The skip itself happens (the `except AttributeError: pass` swallows it),
but the cycle never returns normally: when every message fails
extraction the local `response` is never assigned and
`return response, last_id` raises `UnboundLocalError`; and when any
later message succeeds extraction, the mis-aritied
`handle_annotations(response, annotations)` call raises `TypeError`. -/
theorem c9_extraction_failure_not_contained :
    get_response { status := RunStatus.completed } none [imgMsg] =
      Except.error PyErr.unboundLocalErr ∧
    get_response { status := RunStatus.completed } none [imgMsg, okTextMsg] =
      Except.error PyErr.typeErr :=
  ⟨rfl, rfl⟩

/-- C10: command dispatch (`handle_cmds` in `main.py`): an entry naming
an unregistered command is dropped by the `except KeyError: continue` —
zero tasks spawned, no error surfaced (the model is a total function),
and the loop continues with the remaining entries — while an entry
naming a registered command spawns exactly one task invoking that
command's callback with `(chat_id, params)`. -/
theorem c10_unknown_commands_dropped (commands : List String)
    (pre post : List (Int × String × String)) (chat : Int) (cmd params : String) :
    handle_cmds commands (pre ++ (chat, cmd, params) :: post) =
      handle_cmds commands pre ++
        (if cmd ∈ commands then [(cmd, chat, params)] else []) ++
        handle_cmds commands post := by
  induction pre with
  | nil =>
    by_cases h : cmd ∈ commands <;> simp [handle_cmds, h]
  | cons hd tl ih =>
    obtain ⟨c0, m0, p0⟩ := hd
    by_cases h : m0 ∈ commands <;> simp [handle_cmds, h, ih]

end Onboarding
